import Mathlib

/-!
Verification development for a small HTTP relay service (Express + OpenAI +
Airtable).  The service exposes a session resolver over a record store
(findOrCreateSession), a transcript logger (createMessageRecord), a
non-streaming chat endpoint (/voice-chat), a streaming SSE relay
(/stream-chat), and a text-to-speech proxy (/tts).

The definitions below are a shallow embedding of that source code: the
JavaScript string operations used by the relay (split on "\n\n", trim,
includes, the anchored replace of a leading "data: "), the JSON.parse
subset the relay depends on, the per-payload processing of the stream-chat
data handler, a state machine for the stream lifecycle, the session
resolver over an abstract record store, and effect-trace models of the
request handlers.  External collaborators (the record store, the
completion API, the speech API) appear as explicit oracle parameters.
-/

/-! ## JavaScript string primitives, embedded on character lists -/

/-- Whitespace recognised by the JavaScript trim used in the relay. -/
def jsWsChar (c : Char) : Bool :=
  c == ' ' || c == '\t' || c == '\n' || c == '\r' ||
    c == Char.ofNat 11 || c == Char.ofNat 12

/-- Does the list start with the given lead sequence? -/
def leadsWith : List Char → List Char → Bool
  | [], _ => true
  | _ :: _, [] => false
  | a :: as, b :: bs => a == b && leadsWith as bs

/-- JavaScript includes: does the haystack contain the needle as a
contiguous subsequence? -/
def containsSeq : List Char → List Char → Bool
  | [], needle => needle.isEmpty
  | h :: t, needle => leadsWith needle (h :: t) || containsSeq t needle

/-- Embedding of the JavaScript test payload.includes of a marker string. -/
def includesStr (s marker : String) : Bool :=
  containsSeq s.data marker.data

/-- Splitting on the two-character separator of two newline characters,
left to right, non-overlapping: the embedding of split on the SSE frame
separator used by the data handler. -/
def splitNN (acc : List Char) : List Char → List (List Char)
  | '\n' :: '\n' :: rest => acc.reverse :: splitNN [] rest
  | c :: rest => splitNN (c :: acc) rest
  | [] => [acc.reverse]

/-- chunk.toString().split of the SSE separator, as used at the top of the
stream-chat data handler. -/
def jsSplitNN (s : String) : List String :=
  (splitNN [] s.data).map String.mk

/-- JavaScript trim on a character list. -/
def trimChars (cs : List Char) : List Char :=
  ((cs.dropWhile jsWsChar).reverse.dropWhile jsWsChar).reverse

/-- JavaScript payload.trim. -/
def jsTrim (s : String) : String :=
  String.mk (trimChars s.data)

/-- The anchored regular-expression replace removing one leading
"data: " occurrence, as in the stream-chat data handler. -/
def stripData (p : String) : String :=
  if leadsWith ("data: ").data p.data then String.mk (p.data.drop 6) else p

/-! ## JSON values and a JSON.parse embedding

The relay parses each SSE payload with JSON.parse and reads the nested
field choices[0].delta.content.  The parser below is a recursive-descent
embedding of JSON.parse for objects, arrays, strings with the common
escapes, numbers, and the three literals, written with explicit fuel so
that every definition is structurally recursive and kernel-evaluable. -/

inductive Json where
  | null
  | bool (b : Bool)
  | num (lexeme : String)
  | str (s : String)
  | arr (elems : List Json)
  | obj (fields : List (String × Json))

/-- The opening brace character. -/
def lbrace : Char := Char.ofNat 123

/-- The closing brace character. -/
def rbrace : Char := Char.ofNat 125

/-- JSON whitespace. -/
def skipWs (cs : List Char) : List Char :=
  cs.dropWhile fun c => c == ' ' || c == '\t' || c == '\n' || c == '\r'

/-- One escaped character inside a JSON string literal. -/
def escChar (c : Char) : Option Char :=
  if c = '"' then some '"'
  else if c = '\\' then some '\\'
  else if c = '/' then some '/'
  else if c = 'n' then some '\n'
  else if c = 't' then some '\t'
  else if c = 'r' then some '\r'
  else if c = 'b' then some (Char.ofNat 8)
  else if c = 'f' then some (Char.ofNat 12)
  else none

/-- Body of a JSON string literal, after the opening quote. -/
def parseStringBody (acc : List Char) : List Char → Option (String × List Char)
  | [] => none
  | c :: rest =>
    if c = '"' then some (String.mk acc.reverse, rest)
    else if c = '\\' then
      match rest with
      | [] => none
      | e :: rest2 =>
        match escChar e with
        | some d => parseStringBody (d :: acc) rest2
        | none => none
    else parseStringBody (c :: acc) rest

/-- Optional fraction part of a JSON number. -/
def parseFrac (cs : List Char) : Option (List Char × List Char) :=
  match cs with
  | c :: rest =>
    if c = '.' then
      let sp := rest.span Char.isDigit
      if sp.1.isEmpty then none else some (c :: sp.1, sp.2)
    else some ([], cs)
  | [] => some ([], cs)

/-- Optional exponent part of a JSON number. -/
def parseExp (cs : List Char) : Option (List Char × List Char) :=
  match cs with
  | c :: rest =>
    if c == 'e' || c == 'E' then
      let sr : List Char × List Char :=
        match rest with
        | d :: r => if d == '+' || d == '-' then ([d], r) else ([], rest)
        | [] => ([], rest)
      let sp := sr.2.span Char.isDigit
      if sp.1.isEmpty then none else some (c :: (sr.1 ++ sp.1), sp.2)
    else some ([], cs)
  | [] => some ([], cs)

/-- A JSON number; the lexeme is kept as text since the relay never reads
numeric fields. -/
def parseNumber (cs : List Char) : Option (Json × List Char) :=
  let sc : List Char × List Char :=
    match cs with
    | c :: rest => if c = '-' then ([c], rest) else ([], cs)
    | [] => ([], cs)
  let dg := sc.2.span Char.isDigit
  if dg.1.isEmpty then none
  else
    match parseFrac dg.2 with
    | none => none
    | some fr =>
      match parseExp fr.2 with
      | none => none
      | some ex => some (.num (String.mk (sc.1 ++ dg.1 ++ fr.1 ++ ex.1)), ex.2)

mutual

/-- A JSON value, by recursive descent with explicit fuel. -/
def parseValue : Nat → List Char → Option (Json × List Char)
  | 0, _ => none
  | fuel + 1, cs0 =>
    match skipWs cs0 with
    | [] => none
    | c :: rest =>
      if c = '"' then
        match parseStringBody [] rest with
        | some sr => some (.str sr.1, sr.2)
        | none => none
      else if c = lbrace then
        match skipWs rest with
        | c2 :: r2 =>
          if c2 = rbrace then some (.obj [], r2)
          else
            match parseMembers fuel (c2 :: r2) with
            | some mr => some (.obj mr.1, mr.2)
            | none => none
        | [] => none
      else if c = '[' then
        match skipWs rest with
        | c2 :: r2 =>
          if c2 = ']' then some (.arr [], r2)
          else
            match parseElements fuel (c2 :: r2) with
            | some er => some (.arr er.1, er.2)
            | none => none
        | [] => none
      else if (c :: rest).take 4 = ("true").data then
        some (.bool true, (c :: rest).drop 4)
      else if (c :: rest).take 5 = ("false").data then
        some (.bool false, (c :: rest).drop 5)
      else if (c :: rest).take 4 = ("null").data then
        some (.null, (c :: rest).drop 4)
      else parseNumber (c :: rest)

/-- The members of a JSON object, after the opening brace. -/
def parseMembers : Nat → List Char → Option (List (String × Json) × List Char)
  | 0, _ => none
  | fuel + 1, cs =>
    match skipWs cs with
    | c :: rest =>
      if c = '"' then
        match parseStringBody [] rest with
        | some kr =>
          match skipWs kr.2 with
          | c2 :: r2 =>
            if c2 = ':' then
              match parseValue fuel r2 with
              | some vr =>
                match skipWs vr.2 with
                | c3 :: r4 =>
                  if c3 = ',' then
                    match parseMembers fuel r4 with
                    | some mr => some ((kr.1, vr.1) :: mr.1, mr.2)
                    | none => none
                  else if c3 = rbrace then some ([(kr.1, vr.1)], r4)
                  else none
                | [] => none
              | none => none
            else none
          | [] => none
        | none => none
      else none
    | [] => none

/-- The elements of a JSON array, after the opening bracket. -/
def parseElements : Nat → List Char → Option (List Json × List Char)
  | 0, _ => none
  | fuel + 1, cs =>
    match parseValue fuel cs with
    | some vr =>
      match skipWs vr.2 with
      | c :: r2 =>
        if c = ',' then
          match parseElements fuel r2 with
          | some er => some (vr.1 :: er.1, er.2)
          | none => none
        else if c = ']' then some ([vr.1], r2)
        else none
      | [] => none
    | none => none

end

/-- JSON.parse: parse one value and require only whitespace afterwards. -/
def JSONparse (s : String) : Option Json :=
  match parseValue (2 * s.data.length + 2) s.data with
  | some jr => if skipWs jr.2 = [] then some jr.1 else none
  | none => none

/-- Field access on a parsed object, as the optional chaining does. -/
def jGet (j : Json) (key : String) : Option Json :=
  match j with
  | .obj fs => fs.lookup key
  | _ => none

/-- The nested read choices[0].delta.content of the data handler;
present only when the path exists and ends at a string. -/
def getContent (j : Json) : Option String :=
  match jGet j "choices" with
  | some (.arr (c0 :: _)) =>
    match jGet c0 "delta" with
    | some d =>
      match jGet d "content" with
      | some (.str s) => some s
      | _ => none
    | none => none
  | _ => none

/-! ## The stream-chat relay

The data handler splits each chunk on the SSE separator and processes each
payload: a payload containing the end sentinel is dropped; an empty
(after trim) payload is skipped; otherwise the payload, with a leading
"data: " removed, is parsed as JSON and the nested content fragment, when
present and truthy, is appended to the running response and forwarded as
one event frame. -/

/-- The content fragment a payload contributes, if any: this single
function drives both the accumulation into the full response and the
frame written to the caller, exactly as the data handler does. -/
def payloadContent (p : String) : Option String :=
  if includesStr p "[DONE]" then none
  else if jsTrim p = "" then none
  else
    match JSONparse (stripData p) with
    | none => none
    | some j =>
      match getContent j with
      | some c => if c = "" then none else some c
      | none => none

/-- Observable actions of the stream-chat handler on its collaborators:
frames written to the HTTP response, message records created in the
store (with the outcome of the store call), and closing the response. -/
inductive RelayAct where
  | writeFrame (frame : String)
  | recordMsg (sender text : String) (ok : Bool)
  | closeStream

/-- The SSE frame wrapping one forwarded fragment. -/
def dataFrame (c : String) : String := "data: " ++ c ++ "\n\n"

/-- The terminal frame emitted at upstream end-of-stream. -/
def streamDoneFrame : String := "data: [STREAM_DONE]\n\n"

/-- Processing of one payload inside the data handler: the state is the
accumulated full response paired with the actions taken so far. -/
def payloadStep (st : String × List RelayAct) (p : String) : String × List RelayAct :=
  match payloadContent p with
  | some c => (st.1 ++ c, st.2 ++ [RelayAct.writeFrame (dataFrame c)])
  | none => st

/-- Processing of one chunk: split on the SSE separator, then process the
payloads in order. -/
def chunkStep (st : String × List RelayAct) (chunk : String) : String × List RelayAct :=
  (jsSplitNN chunk).foldl payloadStep st

/-! ### Stream lifecycle state machine

The relay is driven by the three upstream events data, end, and error.
Fragments are only forwarded in the streaming state; end records the
accumulated response (the aiLogOk oracle gives the outcome of that store
call) and, when recording succeeded, emits the terminal frame and closes;
error closes the response immediately with no terminal frame.  Both final
states absorb every further event with no output, since the response has
been closed. -/

inductive RState where
  | streaming
  | done
  | error

structure MState where
  st : RState
  acc : String

inductive REvent where
  | dataEv (chunk : String)
  | endEv
  | errorEv

/-- One transition of the stream-chat relay. -/
def rstep (aiLogOk : Bool) (m : MState) (e : REvent) : MState × List RelayAct :=
  match m.st, e with
  | .streaming, .dataEv chunk =>
    let r := chunkStep (m.acc, []) chunk
    (⟨.streaming, r.1⟩, r.2)
  | .streaming, .endEv =>
    if aiLogOk then
      (⟨.done, m.acc⟩,
        [RelayAct.recordMsg "AI" m.acc true, RelayAct.writeFrame streamDoneFrame,
          RelayAct.closeStream])
    else
      (⟨.done, m.acc⟩, [RelayAct.recordMsg "AI" m.acc false])
  | .streaming, .errorEv => (⟨.error, m.acc⟩, [RelayAct.closeStream])
  | _, _ => (m, [])

/-- Run the relay over a list of upstream events, collecting actions. -/
def runMachine (aiLogOk : Bool) : MState → List REvent → List RelayAct
  | _, [] => []
  | m, e :: evs =>
    let r := rstep aiLogOk m e
    r.2 ++ runMachine aiLogOk r.1 evs

/-- The frames written among a list of actions. -/
def emittedFrames (acts : List RelayAct) : List String :=
  acts.filterMap fun a =>
    match a with
    | .writeFrame f => some f
    | _ => none

/-- The fragments contributed by a list of chunks, in arrival order. -/
def contentsOf (chunks : List String) : List String :=
  chunks.flatMap fun ch => (jsSplitNN ch).filterMap payloadContent

/-- Concatenation of a list of fragments in order. -/
def concatAll : List String → String
  | [] => ""
  | c :: cs => c ++ concatAll cs

/-! ## The session resolver over the record store

findOrCreateSession builds an Airtable filterByFormula string by direct
interpolation of the two identifiers, selects at most one matching
record, and either returns the first match or creates a record with
Session_Status set to the in-progress value and returns its id.  The
store evaluates the formula; it is abstract here, so matching is
parameterised by the evaluation the store applies to the formula. -/

structure SessionFields where
  stakeholder : String
  projectID : String
  sessionStatus : String
  deriving DecidableEq

structure SessionRec where
  recId : Nat
  fields : SessionFields
  deriving DecidableEq

/-- Fixed text before the first interpolated identifier. -/
def fPre : String := "AND(\x7bStakeholder\x7d = \""

/-- Fixed text between the two interpolated identifiers. -/
def fMid : String := "\", \x7bProjectID\x7d = \""

/-- Fixed text after the second interpolated identifier. -/
def fSuf : String := "\")"

/-- The filterByFormula string built by findOrCreateSession, by direct
template interpolation of the two identifiers. -/
def filterFormula (s p : String) : String :=
  fPre ++ s ++ fMid ++ p ++ fSuf

/-- The session-status value written on creation. -/
def inProgress : String := "In Progress"

/-- findOrCreateSession: storeEval is the evaluation the external store
applies to the formula, the store is its current record list in default
query order, and newId is the id the store would assign to a created
record.  Returns the resulting id and the store contents afterwards. -/
def findOrCreateSession (storeEval : String → SessionFields → Bool)
    (store : List SessionRec) (newId : Nat) (s p : String) :
    Nat × List SessionRec :=
  match store.find? (fun r => storeEval (filterFormula s p) r.fields) with
  | some r => (r.recId, store)
  | none => (newId, store ++ [⟨newId, ⟨s, p, inProgress⟩⟩])

/-- Strip an expected lead sequence, or fail. -/
def dropLead : List Char → List Char → Option (List Char)
  | [], rest => some rest
  | _ :: _, [] => none
  | a :: as, b :: bs => if a = b then dropLead as bs else none

/-- Split a character list at its first double quote: the part before it
and the remainder starting at the quote. -/
def quoteSpan : List Char → List Char × List Char
  | [] => ([], [])
  | c :: rest =>
    if c = '"' then ([], c :: rest)
    else
      let r := quoteSpan rest
      (c :: r.1, r.2)

/-- Modelled from the spec: the record store itself is external to this
repository, and the spec describes its select contract as matching both
fields exactly.  This parses a formula of the exact shape the resolver
generates, reading each literal up to its closing quote as the formula
language does. -/
def parseFilter (f : String) : Option (String × String) :=
  match dropLead fPre.data f.data with
  | none => none
  | some r1 =>
    let sp := quoteSpan r1
    match dropLead fMid.data sp.2 with
    | none => none
    | some r2 =>
      let pp := quoteSpan r2
      if pp.2 = fSuf.data then some (String.mk sp.1, String.mk pp.1)
      else none

/-- Modelled from the spec: a store evaluation that matches the two
fields by exact, case-sensitive string equality against the literals
parsed from the formula, and matches nothing on a formula not of the
generated shape. -/
def airtableExactEval (formula : String) (flds : SessionFields) : Bool :=
  match parseFilter formula with
  | some ab => flds.stakeholder == ab.1 && flds.projectID == ab.2
  | none => false

/-! ## Request handler models

Each handler is a function of its request body and of an environment of
oracles giving the outcomes of the external calls (record store,
completion API, speech API).  Alongside its response, a handler returns
the ordered trace of external calls it performed, each tagged with its
outcome, so that claims about which calls happen can be stated. -/

/-- A request body field as JavaScript sees it: absent, or a string. -/
def jsTruthy : Option String → Bool
  | none => false
  | some s => !(s == "")

/-- External calls a chat handler can perform, with each call outcome. -/
inductive CallEff where
  | sessionResolve (stakeholderID projectID : Option String) (ok : Bool)
  | msgCreate (sender text : String) (ok : Bool)
  | completionCall (ok : Bool)

/-- Response of the non-streaming /voice-chat handler. -/
inductive VResponse where
  | okJson (aiResponse : String)
  | badRequest
  | serverError

/-- Oracle outcomes for the external calls of /voice-chat. -/
structure VoiceEnv where
  resolveRes : Except Unit String
  logUserRes : Except Unit Unit
  completionRes : Except Unit String
  logAiRes : Except Unit Unit

/-- The /voice-chat handler: reject a missing or empty userMessage with
400 and no external call; otherwise resolve the session, record the
User message, call the completion API, record the AI message, and
return the completion text; any failure falls to the catch-all 500. -/
def voiceChat (env : VoiceEnv) (body : Option String × Option String × Option String) :
    VResponse × List CallEff :=
  let stakeholderID := body.1
  let projectID := body.2.1
  let userMessage := body.2.2
  match userMessage with
  | none => (.badRequest, [])
  | some m =>
    if m = "" then (.badRequest, [])
    else
      match env.resolveRes with
      | .error _ => (.serverError, [.sessionResolve stakeholderID projectID false])
      | .ok _sid =>
        let e1 := CallEff.sessionResolve stakeholderID projectID true
        match env.logUserRes with
        | .error _ => (.serverError, [e1, .msgCreate "User" m false])
        | .ok _ =>
          let e2 := CallEff.msgCreate "User" m true
          match env.completionRes with
          | .error _ => (.serverError, [e1, e2, .completionCall false])
          | .ok ai =>
            match env.logAiRes with
            | .error _ =>
              (.serverError, [e1, e2, .completionCall true, .msgCreate "AI" ai false])
            | .ok _ =>
              (.okJson ai, [e1, e2, .completionCall true, .msgCreate "AI" ai true])

/-- How the upstream completion stream terminates. -/
inductive EndKind where
  | endOfStream
  | transportError

/-- The upstream stream behaviour for one /stream-chat run: the chunks
delivered to the data handler, how the stream terminates, and the
outcome of the store call recording the accumulated AI response. -/
structure StreamScript where
  chunks : List String
  ending : EndKind
  aiLogOk : Bool

/-- Oracle outcomes for the external calls of /stream-chat. -/
structure StreamEnv where
  resolveRes : Except Unit String
  logUserRes : Except Unit Unit
  completionRes : Except Unit StreamScript

/-- Response of the /stream-chat handler. -/
inductive StreamResponse where
  | badRequest
  | serverError
  | sse (acts : List RelayAct)

/-- The upstream events of a stream script. -/
def scriptEvents (sc : StreamScript) : List REvent :=
  sc.chunks.map REvent.dataEv ++
    [match sc.ending with
      | .endOfStream => REvent.endEv
      | .transportError => REvent.errorEv]

/-- The /stream-chat handler: reject a missing or empty userMessage with
400 and no external call; otherwise resolve the session, record the User
message, start the streaming completion, and relay its events through
the state machine. -/
def streamChat (env : StreamEnv) (body : Option String × Option String × Option String) :
    StreamResponse × List CallEff :=
  let stakeholderID := body.1
  let projectID := body.2.1
  let userMessage := body.2.2
  match userMessage with
  | none => (.badRequest, [])
  | some m =>
    if m = "" then (.badRequest, [])
    else
      match env.resolveRes with
      | .error _ => (.serverError, [.sessionResolve stakeholderID projectID false])
      | .ok _sid =>
        let e1 := CallEff.sessionResolve stakeholderID projectID true
        match env.logUserRes with
        | .error _ => (.serverError, [e1, .msgCreate "User" m false])
        | .ok _ =>
          let e2 := CallEff.msgCreate "User" m true
          match env.completionRes with
          | .error _ => (.serverError, [e1, e2, .completionCall false])
          | .ok sc =>
            (.sse (runMachine sc.aiLogOk ⟨.streaming, ""⟩ (scriptEvents sc)),
              [e1, e2, .completionCall true])

/-! ### The /tts handler -/

/-- The upstream speech response: its HTTP status and audio bytes; as in
fetch, the response is ok exactly when the status is in the 200 range. -/
structure TtsUpstream where
  status : Nat
  audio : List Nat

/-- fetch response.ok. -/
def ttsOk (u : TtsUpstream) : Bool :=
  decide (200 ≤ u.status ∧ u.status < 300)

/-- Response of the /tts handler. -/
inductive TtsResponse where
  | badRequest
  | passthrough (status : Nat)
  | audioOut (contentType : String) (bytes : List Nat)
  | serverError

/-- The /tts handler: 400 when text is missing or empty; 500 when the
fetch itself fails; the upstream status passed through when the upstream
response is not ok; otherwise the audio bytes as audio/mpeg. -/
def ttsHandler (fetchRes : Except Unit TtsUpstream)
    (text _voice : Option String) : TtsResponse :=
  match text with
  | none => .badRequest
  | some t =>
    if t = "" then .badRequest
    else
      match fetchRes with
      | .error _ => .serverError
      | .ok u =>
        if !(ttsOk u) then .passthrough u.status
        else .audioOut "audio/mpeg" u.audio

/-! ## Helper lemmas -/

/-- A payload whose stripped data fails JSON.parse contributes nothing,
whichever earlier guard fires. -/
lemma payloadContent_of_parse_none (m : String)
    (h : JSONparse (stripData m) = none) : payloadContent m = none := by
  unfold payloadContent
  rw [h]
  by_cases h1 : includesStr m "[DONE]" = true <;> simp [h1]

/-- Final states absorb every event with no output. -/
lemma rstep_final_absorb (aiLogOk : Bool) (m : MState) (e : REvent)
    (h : m.st = RState.done ∨ m.st = RState.error) :
    rstep aiLogOk m e = (m, []) := by
  obtain ⟨st, acc⟩ := m
  rcases h with h | h <;> simp only at h <;> subst h <;> cases e <;> rfl

/-- From a final state, no action is ever produced again. -/
lemma runMachine_final_nil (aiLogOk : Bool) (m : MState) (evs : List REvent)
    (h : m.st = RState.done ∨ m.st = RState.error) :
    runMachine aiLogOk m evs = [] := by
  induction evs with
  | nil => rfl
  | cons e evs ih =>
    simp only [runMachine, rstep_final_absorb aiLogOk m e h]
    exact ih

/-- concatAll distributes over list append. -/
lemma concatAll_append (a b : List String) :
    concatAll (a ++ b) = concatAll a ++ concatAll b := by
  induction a with
  | nil => simp [concatAll, String.empty_append]
  | cons c cs ih => simp [concatAll, ih, String.append_assoc]

/-- Folding payloadStep over a payload list appends exactly the
contributed fragments to the accumulator and writes one frame per
fragment, in order. -/
lemma payloadStep_fold (ps : List String) (acc : String) (acts : List RelayAct) :
    ps.foldl payloadStep (acc, acts) =
      (acc ++ concatAll (ps.filterMap payloadContent),
        acts ++ (ps.filterMap payloadContent).map
          (fun c => RelayAct.writeFrame (dataFrame c))) := by
  induction ps generalizing acc acts with
  | nil => simp [concatAll, String.append_empty]
  | cons p ps ih =>
    cases h : payloadContent p with
    | none =>
      simp only [List.foldl_cons, payloadStep, h, List.filterMap_cons_none]
      exact ih acc acts
    | some c =>
      simp only [List.foldl_cons, payloadStep, h]
      rw [ih]
      simp [List.filterMap_cons, h, concatAll, String.append_assoc]

/-- Running the machine over data events forwards the fragments of the
chunks, in order, and accumulates their concatenation. -/
lemma runMachine_dataEvs (aiLogOk : Bool) (chunks : List String)
    (acc : String) (evs : List REvent) :
    runMachine aiLogOk ⟨RState.streaming, acc⟩ (chunks.map REvent.dataEv ++ evs) =
      (contentsOf chunks).map (fun c => RelayAct.writeFrame (dataFrame c)) ++
        runMachine aiLogOk ⟨RState.streaming, acc ++ concatAll (contentsOf chunks)⟩ evs := by
  induction chunks generalizing acc with
  | nil => simp [contentsOf, concatAll, String.append_empty]
  | cons ch chunks ih =>
    simp only [List.map_cons, List.cons_append, runMachine, rstep, chunkStep]
    rw [payloadStep_fold]
    simp only [List.nil_append, List.append_eq]
    rw [ih]
    simp [contentsOf, concatAll_append, String.append_assoc]

/-- Removing an expected lead sequence succeeds and leaves the rest. -/
lemma dropLead_append (l r : List Char) : dropLead l (l ++ r) = some r := by
  induction l with
  | nil => rfl
  | cons c cs ih => simp [dropLead, ih]

/-- Splitting at the first quote of a quote-free part followed by a
quote recovers exactly that part. -/
lemma quoteSpan_eq (l r : List Char) (hq : '"' ∉ l) :
    quoteSpan (l ++ '"' :: r) = (l, '"' :: r) := by
  induction l with
  | nil => rfl
  | cons c cs ih =>
    simp only [List.mem_cons, not_or] at hq
    obtain ⟨hc, hcs⟩ := hq
    rw [List.cons_append, quoteSpan]
    rw [if_neg (fun e => hc e.symm)]
    simp [ih hcs]

/-- For quote-free identifiers the generated formula parses back to
exactly the input pair. -/
lemma parseFilter_roundtrip (s p : String) (hs : '"' ∉ s.data) (hp : '"' ∉ p.data) :
    parseFilter (filterFormula s p) = some (s, p) := by
  unfold parseFilter filterFormula
  have hdata : (fPre ++ s ++ fMid ++ p ++ fSuf).data =
      fPre.data ++ (s.data ++ (fMid.data ++ (p.data ++ fSuf.data))) := by
    simp [String.data_append, List.append_assoc]
  rw [hdata, dropLead_append]
  have hm : s.data ++ (fMid.data ++ (p.data ++ fSuf.data)) =
      s.data ++ '"' :: ((", \x7bProjectID\x7d = \"").data ++ (p.data ++ fSuf.data)) := rfl
  dsimp only
  rw [hm, quoteSpan_eq s.data _ hs]
  have hd2 : dropLead fMid.data
        ('"' :: ((", \x7bProjectID\x7d = \"").data ++ (p.data ++ fSuf.data))) =
      some (p.data ++ fSuf.data) :=
    dropLead_append fMid.data (p.data ++ fSuf.data)
  dsimp only
  rw [hd2]
  have hd3 : quoteSpan (p.data ++ fSuf.data) = (p.data, fSuf.data) :=
    quoteSpan_eq p.data [')'] hp
  dsimp only
  rw [hd3]
  simp

/-! ## Claims -/

/-- Claim C1: for a pair whose formula matches no record of the store,
findOrCreateSession appends exactly one new record, with the two input
fields and the in-progress status, and returns its id; for a pair whose
formula has a first match (find? returns the first record the query
order yields), it returns that id and leaves the store unchanged.  The
spec labels the stored in-progress status value with its enum name
in_progress. -/
theorem c1_find_or_create (storeEval : String → SessionFields → Bool)
    (store : List SessionRec) (newId : Nat) (s p : String) :
    ((∀ r ∈ store, storeEval (filterFormula s p) r.fields = false) →
      findOrCreateSession storeEval store newId s p =
        (newId, store ++ [⟨newId, ⟨s, p, inProgress⟩⟩])) ∧
    (∀ r : SessionRec,
      store.find? (fun rr => storeEval (filterFormula s p) rr.fields) = some r →
      findOrCreateSession storeEval store newId s p = (r.recId, store)) := by
  constructor
  · intro h
    have hn : store.find? (fun rr => storeEval (filterFormula s p) rr.fields) = none :=
      List.find?_eq_none.mpr fun x hx => by simp [h x hx]
    simp [findOrCreateSession, hn]
  · intro r hr
    simp [findOrCreateSession, hr]

/-- Witness for C1 at a concrete store, exercising both the create and
the reuse branch. -/
theorem c1_witness :
    (∀ r ∈ ([⟨5, ⟨"a", "b", inProgress⟩⟩] : List SessionRec),
      airtableExactEval (filterFormula "x" "y") r.fields = false) ∧
    findOrCreateSession airtableExactEval [⟨5, ⟨"a", "b", inProgress⟩⟩] 9 "x" "y" =
      (9, [⟨5, ⟨"a", "b", inProgress⟩⟩] ++ [⟨9, ⟨"x", "y", inProgress⟩⟩]) ∧
    findOrCreateSession airtableExactEval [⟨5, ⟨"a", "b", inProgress⟩⟩] 9 "a" "b" =
      (5, [⟨5, ⟨"a", "b", inProgress⟩⟩]) :=
  ⟨by decide,
    (c1_find_or_create airtableExactEval [⟨5, ⟨"a", "b", inProgress⟩⟩] 9 "x" "y").1
      (by decide),
    (c1_find_or_create airtableExactEval [⟨5, ⟨"a", "b", inProgress⟩⟩] 9 "a" "b").2
      ⟨5, ⟨"a", "b", inProgress⟩⟩ (by decide)⟩

/-- Claim C2: given the upstream frame sequence of a content frame A, a
content frame B, and the sentinel frame, followed by a normal
end-of-stream, the relay emits exactly the frames for A, for B, and the
terminal marker, in that order; the full action trace shows each
extracted fragment forwarded one-to-one in arrival order with no
buffering or reordering. -/
theorem c2_stream_relay_concrete :
    runMachine true ⟨RState.streaming, ""⟩
        [REvent.dataEv "data: \x7b\"choices\":[\x7b\"delta\":\x7b\"content\":\"A\"\x7d\x7d]\x7d",
          REvent.dataEv "data: \x7b\"choices\":[\x7b\"delta\":\x7b\"content\":\"B\"\x7d\x7d]\x7d",
          REvent.dataEv "data: [DONE]", REvent.endEv] =
      [RelayAct.writeFrame "data: A\n\n", RelayAct.writeFrame "data: B\n\n",
        RelayAct.recordMsg "AI" "AB" true,
        RelayAct.writeFrame "data: [STREAM_DONE]\n\n", RelayAct.closeStream] ∧
    emittedFrames (runMachine true ⟨RState.streaming, ""⟩
        [REvent.dataEv "data: \x7b\"choices\":[\x7b\"delta\":\x7b\"content\":\"A\"\x7d\x7d]\x7d",
          REvent.dataEv "data: \x7b\"choices\":[\x7b\"delta\":\x7b\"content\":\"B\"\x7d\x7d]\x7d",
          REvent.dataEv "data: [DONE]", REvent.endEv]) =
      ["data: A\n\n", "data: B\n\n", "data: [STREAM_DONE]\n\n"] :=
  ⟨rfl, rfl⟩

/-- Claim C3: a request with a missing (or, equally falsy, empty)
userMessage is answered with the 400 response by both chat handlers,
with an empty external-call trace: no store query, no store write, no
completion call. -/
theorem c3_missing_user_message (venv : VoiceEnv) (senv : StreamEnv)
    (body : Option String × Option String × Option String)
    (h : jsTruthy body.2.2 = false) :
    voiceChat venv body = (VResponse.badRequest, []) ∧
    streamChat senv body = (StreamResponse.badRequest, []) := by
  obtain ⟨a, b, u⟩ := body
  cases u with
  | none => exact ⟨rfl, rfl⟩
  | some s =>
    simp only [jsTruthy] at h
    have hs : s = "" := by simpa using h
    subst hs
    exact ⟨rfl, rfl⟩

/-- Witness for C3 at a concrete body with no userMessage and oracles
that would succeed if they were consulted. -/
theorem c3_witness :
    jsTruthy ((some "s", some "p", none) :
        Option String × Option String × Option String).2.2 = false ∧
    voiceChat ⟨.ok "sid", .ok (), .ok "ai", .ok ()⟩ (some "s", some "p", none) =
      (VResponse.badRequest, []) ∧
    streamChat ⟨.ok "sid", .ok (), .ok ⟨[], .endOfStream, true⟩⟩
        (some "s", some "p", none) = (StreamResponse.badRequest, []) :=
  ⟨rfl,
    (c3_missing_user_message ⟨.ok "sid", .ok (), .ok "ai", .ok ()⟩
      ⟨.ok "sid", .ok (), .ok ⟨[], .endOfStream, true⟩⟩ (some "s", some "p", none) rfl).1,
    (c3_missing_user_message ⟨.ok "sid", .ok (), .ok "ai", .ok ()⟩
      ⟨.ok "sid", .ok (), .ok ⟨[], .endOfStream, true⟩⟩ (some "s", some "p", none) rfl).2⟩

/-- Claim C4: when the completion call of /voice-chat fails (which
presupposes the session resolution and the User-message logging
succeeded), the handler answers with the 500 response, the trace is
exactly resolve, the successful User record, and the failed completion
call, and no AI message record of any text appears in it. -/
theorem c4_completion_failure (env : VoiceEnv)
    (body : Option String × Option String × Option String) (m sid : String)
    (hu : body.2.2 = some m) (hm : m ≠ "")
    (hres : env.resolveRes = .ok sid) (hlog : env.logUserRes = .ok ())
    (hcomp : env.completionRes = .error ()) :
    voiceChat env body =
      (VResponse.serverError,
        [CallEff.sessionResolve body.1 body.2.1 true,
          CallEff.msgCreate "User" m true, CallEff.completionCall false]) ∧
    (∀ (t : String) (ok : Bool), CallEff.msgCreate "AI" t ok ∉ (voiceChat env body).2) := by
  obtain ⟨a, b, u⟩ := body
  simp only at hu
  subst hu
  have he : voiceChat env (a, b, some m) =
      (VResponse.serverError,
        [CallEff.sessionResolve a b true, CallEff.msgCreate "User" m true,
          CallEff.completionCall false]) := by
    simp [voiceChat, hm, hres, hlog, hcomp]
  exact ⟨he, fun t ok => by rw [he]; simp⟩

/-- Witness for C4 at a concrete body and an environment whose
completion call fails. -/
theorem c4_witness :
    voiceChat ⟨.ok "rec1", .ok (), .error (), .ok ()⟩ (some "st", some "pr", some "hello") =
      (VResponse.serverError,
        [CallEff.sessionResolve (some "st") (some "pr") true,
          CallEff.msgCreate "User" "hello" true, CallEff.completionCall false]) :=
  (c4_completion_failure ⟨.ok "rec1", .ok (), .error (), .ok ()⟩
    (some "st", some "pr", some "hello") "hello" "rec1" rfl (by decide) rfl rfl rfl).1

/-- Claim C5, counterexample: the resolver reaches the store only
through the interpolated formula string, and two distinct input pairs,
each containing quote characters, generate the identical formula; no
evaluation the store could apply to that formula makes the matched set
equal to the exact string-equality set for every input, so the claim
fails as stated for inputs containing quote characters. -/
theorem c5_counterexample :
    ¬ ∃ storeEval : String → SessionFields → Bool,
      ∀ (store : List SessionRec) (s p : String),
        store.filter (fun r => storeEval (filterFormula s p) r.fields) =
          store.filter (fun r => r.fields.stakeholder == s && r.fields.projectID == p) := by
  rintro ⟨storeEval, H⟩
  have h1 := H [⟨0, ⟨"x\", \x7bProjectID\x7d = \"y", "z", inProgress⟩⟩]
    "x\", \x7bProjectID\x7d = \"y" "z"
  have h2 := H [⟨0, ⟨"x\", \x7bProjectID\x7d = \"y", "z", inProgress⟩⟩]
    "x" "y\", \x7bProjectID\x7d = \"z"
  have hf : filterFormula "x\", \x7bProjectID\x7d = \"y" "z" =
      filterFormula "x" "y\", \x7bProjectID\x7d = \"z" := rfl
  rw [hf] at h1
  exact absurd (h1.symm.trans h2) (by decide)

/-- Claim C5, amended: for inputs containing no double quote the
generated formula determines the pair exactly, so a store evaluating it
as the exact-match conjunction it reads as selects precisely the
records whose two fields are string-equal (case-sensitively, with no
normalization) to the inputs. -/
theorem c5_exact_match_quotefree (store : List SessionRec) (s p : String)
    (hs : '"' ∉ s.data) (hp : '"' ∉ p.data) :
    store.filter (fun r => airtableExactEval (filterFormula s p) r.fields) =
      store.filter (fun r => r.fields.stakeholder == s && r.fields.projectID == p) := by
  apply List.filter_congr
  intro r _
  simp [airtableExactEval, parseFilter_roundtrip s p hs hp]

/-- Witness for the amended C5 at concrete quote-free inputs. -/
theorem c5_witness :
    ('"' ∉ ("alice" : String).data) ∧ ('"' ∉ ("proj1" : String).data) ∧
    ([⟨0, ⟨"alice", "proj1", inProgress⟩⟩, ⟨1, ⟨"bob", "proj1", inProgress⟩⟩] :
        List SessionRec).filter
        (fun r => airtableExactEval (filterFormula "alice" "proj1") r.fields) =
      [⟨0, ⟨"alice", "proj1", inProgress⟩⟩] :=
  ⟨by decide, by decide,
    (c5_exact_match_quotefree
      [⟨0, ⟨"alice", "proj1", inProgress⟩⟩, ⟨1, ⟨"bob", "proj1", inProgress⟩⟩]
      "alice" "proj1" (by decide) (by decide)).trans (by decide)⟩

/-- Claim C6: a frame whose data fails to parse, interleaved between two
content frames inside a chunk, is skipped without aborting the stream:
the two valid fragments are forwarded in their original order, the
accumulated response is their concatenation, and the run still ends
normally with the terminal marker. -/
theorem c6_malformed_skipped (chunk v1 m v2 c1 c2 : String)
    (hsplit : jsSplitNN chunk = [v1, m, v2])
    (h1 : payloadContent v1 = some c1)
    (h2 : payloadContent v2 = some c2)
    (hm : JSONparse (stripData m) = none) :
    runMachine true ⟨RState.streaming, ""⟩ [REvent.dataEv chunk, REvent.endEv] =
      [RelayAct.writeFrame (dataFrame c1), RelayAct.writeFrame (dataFrame c2),
        RelayAct.recordMsg "AI" (c1 ++ c2) true,
        RelayAct.writeFrame streamDoneFrame, RelayAct.closeStream] := by
  have hmc := payloadContent_of_parse_none m hm
  simp only [runMachine, rstep, chunkStep]
  rw [hsplit]
  simp [payloadStep, h1, h2, hmc, runMachine, rstep, String.empty_append]

/-- Witness for C6: a concrete chunk holding a valid frame, a malformed
frame, and a valid frame. -/
theorem c6_witness :
    JSONparse (stripData "not json") = none ∧
    runMachine true ⟨RState.streaming, ""⟩
        [REvent.dataEv ("data: \x7b\"choices\":[\x7b\"delta\":\x7b\"content\":\"A\"\x7d\x7d]\x7d\n\nnot json\n\ndata: \x7b\"choices\":[\x7b\"delta\":\x7b\"content\":\"B\"\x7d\x7d]\x7d"),
          REvent.endEv] =
      [RelayAct.writeFrame "data: A\n\n", RelayAct.writeFrame "data: B\n\n",
        RelayAct.recordMsg "AI" "AB" true,
        RelayAct.writeFrame streamDoneFrame, RelayAct.closeStream] :=
  ⟨rfl,
    c6_malformed_skipped
      "data: \x7b\"choices\":[\x7b\"delta\":\x7b\"content\":\"A\"\x7d\x7d]\x7d\n\nnot json\n\ndata: \x7b\"choices\":[\x7b\"delta\":\x7b\"content\":\"B\"\x7d\x7d]\x7d"
      "data: \x7b\"choices\":[\x7b\"delta\":\x7b\"content\":\"A\"\x7d\x7d]\x7d" "not json"
      "data: \x7b\"choices\":[\x7b\"delta\":\x7b\"content\":\"B\"\x7d\x7d]\x7d" "A" "B"
      rfl rfl rfl rfl⟩

/-- Claim C7: on an upstream transport error the relay closes the output
immediately, emitting no frame at all (in particular no terminal
marker); and once a final state (done or error) is reached, no event
changes the state back and no fragment is ever forwarded again. -/
theorem c7_error_terminal :
    (∀ (aiLogOk : Bool) (acc : String),
      rstep aiLogOk ⟨RState.streaming, acc⟩ REvent.errorEv =
        (⟨RState.error, acc⟩, [RelayAct.closeStream])) ∧
    (∀ (aiLogOk : Bool) (m : MState) (e : REvent),
      m.st = RState.done ∨ m.st = RState.error → rstep aiLogOk m e = (m, [])) ∧
    (∀ (aiLogOk : Bool) (m : MState) (evs : List REvent),
      m.st = RState.done ∨ m.st = RState.error → runMachine aiLogOk m evs = []) :=
  ⟨fun _ _ => rfl, rstep_final_absorb, runMachine_final_nil⟩

/-- Witness for C7 at concrete states and events. -/
theorem c7_error_terminal_witness :
    rstep true ⟨RState.streaming, "abc"⟩ REvent.errorEv =
        (⟨RState.error, "abc"⟩, [RelayAct.closeStream]) ∧
    rstep true ⟨RState.done, "x"⟩ (REvent.dataEv "q") = (⟨RState.done, "x"⟩, []) ∧
    runMachine false ⟨RState.error, "y"⟩ [REvent.dataEv "z", REvent.endEv] = [] :=
  ⟨c7_error_terminal.1 true "abc",
    c7_error_terminal.2.1 true ⟨RState.done, "x"⟩ (REvent.dataEv "q") (Or.inl rfl),
    c7_error_terminal.2.2 false ⟨RState.error, "y"⟩ [REvent.dataEv "z", REvent.endEv]
      (Or.inr rfl)⟩

/-- Claim C8: a /tts request without text (or with the equally falsy
empty text) is answered 400; when the upstream speech call returns an
unsuccessful response the handler passes its status through; on success
it returns the audio bytes as audio/mpeg. -/
theorem c8_tts :
    (∀ (fetchRes : Except Unit TtsUpstream) (voice : Option String),
      ttsHandler fetchRes none voice = TtsResponse.badRequest ∧
      ttsHandler fetchRes (some "") voice = TtsResponse.badRequest) ∧
    (∀ (t : String) (voice : Option String) (u : TtsUpstream),
      t ≠ "" → ttsOk u = false →
      ttsHandler (.ok u) (some t) voice = TtsResponse.passthrough u.status) ∧
    (∀ (t : String) (voice : Option String) (u : TtsUpstream),
      t ≠ "" → ttsOk u = true →
      ttsHandler (.ok u) (some t) voice = TtsResponse.audioOut "audio/mpeg" u.audio) := by
  refine ⟨fun f v => ⟨rfl, rfl⟩, ?_, ?_⟩ <;>
    intro t v u ht hok <;> simp [ttsHandler, ht, hok]

/-- Witness for C8 exercising all three branches at concrete inputs. -/
theorem c8_witness :
    ttsHandler (.error ()) none none = TtsResponse.badRequest ∧
    ttsHandler (.ok ⟨404, []⟩) (some "hi") none = TtsResponse.passthrough 404 ∧
    ttsHandler (.ok ⟨200, [1, 2]⟩) (some "hi") (some "nova") =
      TtsResponse.audioOut "audio/mpeg" [1, 2] :=
  ⟨(c8_tts.1 (.error ()) none).1,
    c8_tts.2.1 "hi" none ⟨404, []⟩ (by decide) rfl,
    c8_tts.2.2 "hi" (some "nova") ⟨200, [1, 2]⟩ (by decide) rfl⟩

/-- Claim C9: a payload containing the sentinel text anywhere is dropped
whole: it contributes no fragment and its processing step leaves the
accumulator and the emitted actions unchanged, even when the payload is
a well-formed content frame whose fragment merely contains the
sentinel. -/
theorem c9_done_drops_payload (p : String)
    (h : includesStr p "[DONE]" = true) :
    payloadContent p = none ∧
      ∀ st : String × List RelayAct, payloadStep st p = st := by
  have hc : payloadContent p = none := by simp [payloadContent, h]
  exact ⟨hc, fun st => by simp [payloadStep, hc]⟩

/-- Witness for C9: a well-formed content frame whose extracted fragment
contains the sentinel is dropped whole, although its nested content
field parses to a fragment. -/
theorem c9_done_drops_payload_witness :
    includesStr "data: \x7b\"choices\":[\x7b\"delta\":\x7b\"content\":\"x[DONE]y\"\x7d\x7d]\x7d" "[DONE]" = true ∧
    payloadContent "data: \x7b\"choices\":[\x7b\"delta\":\x7b\"content\":\"x[DONE]y\"\x7d\x7d]\x7d" = none ∧
    getContent (Json.obj [("choices", Json.arr [Json.obj [("delta",
      Json.obj [("content", Json.str "x[DONE]y")])]])]) = some "x[DONE]y" :=
  ⟨rfl,
    (c9_done_drops_payload
      "data: \x7b\"choices\":[\x7b\"delta\":\x7b\"content\":\"x[DONE]y\"\x7d\x7d]\x7d" rfl).1,
    rfl⟩

/-- Claim C10: a stream-chat run ending in a normal end-of-stream whose
AI-record store call succeeds produces exactly one AI record, its text
the concatenation in emission order of all fragments forwarded during
the run, and that record action precedes the terminal frame. -/
theorem c10_ai_record (chunks : List String) :
    runMachine true ⟨RState.streaming, ""⟩ (chunks.map REvent.dataEv ++ [REvent.endEv]) =
      (contentsOf chunks).map (fun c => RelayAct.writeFrame (dataFrame c)) ++
        [RelayAct.recordMsg "AI" (concatAll (contentsOf chunks)) true,
          RelayAct.writeFrame streamDoneFrame, RelayAct.closeStream] := by
  rw [runMachine_dataEvs]
  simp [runMachine, rstep, String.empty_append]
